import Mathlib

/-!
Verification of `mapit_postcodes_union_postcode_regions.py` (the management
command of tombarton/postcodes-mapit).

The Python file drives a geometric pipeline on top of the GEOS library
(via Django's GIS bindings).  The GEOS library itself is an external
collaborator, so it is modelled here as an abstract interface `GeosApi`:
a type of geometries together with the observers and operations the
command uses (`geom_type`, `coords`, iteration over collection members,
`contains`, `intersects`, `intersection`, `unary_union` of a collection,
Python truthiness, `transform(4326)`, `valid`, `.json`), plus the
standard set-level semantics of the spatial operations, phrased through
an abstract finite `extent` (the spatial footprint of a geometry):
  * `intersects a b` holds iff the extents meet,
  * the extent of `intersection a b` is the intersection of extents,
  * a member of a collection lies inside the collection,
  * the extent of a `unary_union` is the union of the members' extents.
Every function of the Python file that the claims touch is translated
below over an arbitrary `GeosApi`; a small executable model `FinGeom`
instantiates the interface for concrete evaluation.

Python exceptions are modelled with `Except String`; module-level
globals (`inland_sectors_by_region_code`, `region_code_to_geometry_cache`)
become explicit arguments, dictionaries become association lists.
-/

namespace MapitPostcodes

/-- Planar (EPSG:27700) coordinates of a vertex, as supplied by GEOS
`coords` tuples. -/
abbrev Pt := Int × Int

/-- `d.get(k)` / `d[k]`-style lookup in an association list (Python `dict`
keyed by strings, in insertion order). -/
def dictGet {α : Type} (d : List (String × α)) (k : String) : Option α :=
  (d.find? (fun kv => kv.1 == k)).map (fun kv => kv.2)

/-- The GEOS geometry interface consumed by the command, together with the
set-level semantics of the spatial operations (GEOS is an external
library; these are the standard facts about its operations, stated over
an abstract spatial footprint `extent`). -/
structure GeosApi (G : Type) where
  /-- `geometry.geom_type`. -/
  geomType : G → String
  /-- `polygon.coords` when the geometry is a Polygon: its rings. -/
  polygonCoords : G → List (List Pt)
  /-- `polygon.coords` when the geometry is a MultiPolygon. -/
  multiCoords : G → List (List (List Pt))
  /-- iteration over a GeometryCollection's members. -/
  members : G → List G
  /-- `geometry.contains(Point(x, y))`. -/
  containsPt : G → Pt → Bool
  /-- `a.intersects(b)`. -/
  intersects : G → G → Bool
  /-- `a.intersection(b)`. -/
  intersection : G → G → G
  /-- `GeometryCollection(*gs, srid=27700).unary_union`. -/
  collectionUnion : List G → G
  /-- Python truthiness `bool(geometry)`: Django GEOS geometries are falsy
  exactly when empty (their length — ring or member count — is zero). -/
  isTruthy : G → Bool
  /-- `geometry.transform(4326, clone=True)`. -/
  transform4326 : G → G
  /-- `geometry.valid`. -/
  isValid : G → Bool
  /-- `geometry.json`: the raw GeoJSON representation. -/
  jsonRepr : G → String
  /-- Abstract spatial footprint of a geometry. -/
  extent : G → Finset Pt
  /-- Two geometries intersect iff their footprints meet. -/
  h_intersects : ∀ a b, intersects a b = true ↔ ((extent a) ∩ (extent b)).Nonempty
  /-- The footprint of an intersection is the intersection of footprints. -/
  h_inter_extent : ∀ a b, extent (intersection a b) = extent a ∩ extent b
  /-- A member of a collection lies within the collection. -/
  h_member_extent : ∀ g m, m ∈ members g → extent m ⊆ extent g
  /-- The footprint of the union of a collection is the union of the
  members' footprints. -/
  h_union_extent : ∀ gs,
    extent (collectionUnion gs) = gs.foldr (fun g s => extent g ∪ s) ∅

/-! ### Postcode-sector regex (source lines 67-71)

`SECTOR_RE = r"(^\S+ \S).*"`; `postcode_to_sector` is
`re.sub(SECTOR_RE, "\\1", postcode)`.  The pattern is anchored, so at
most one substitution happens, at position 0: a maximal nonempty run of
non-whitespace, a literal space, one non-whitespace character (the
captured group), then `.*` greedily eats the rest of the first line. -/

/-- Try to match `^\S+ \S` at the start of the character list, returning
the captured group and the suffix that follows it. -/
def sectorSplit (cs : List Char) : Option (List Char × List Char) :=
  let w := cs.takeWhile (fun c => !c.isWhitespace)
  match w, cs.drop w.length with
  | [], _ => none
  | _ :: _, ' ' :: c :: rest =>
      if !c.isWhitespace then some (w ++ [' ', c], rest) else none
  | _ :: _, _ => none

/-- `postcode_to_sector` (source line 70): substitute the whole (anchored)
match by the captured group; `.*` (no DOTALL) consumes up to the first
newline, any later lines are kept. -/
def postcode_to_sector (postcode : String) : String :=
  match sectorSplit postcode.toList with
  | none => postcode
  | some (g1, rest) => String.mk (g1 ++ rest.dropWhile (fun c => c != '\n'))

/-- Truthiness of `postcode_or_prefix and re.search(SECTOR_RE,
postcode_or_prefix)` (source lines 82-84): the hint is a non-None,
nonempty string on which the sector pattern matches. -/
def usableHint : Option String → Bool
  | none => false
  | some s => (!(s == "")) && (sectorSplit s.toList).isSome

/-! ### Region geometry cache (source lines 39, 74-78) -/

/-- `get_region_geometry` (source lines 74-78).  Note `if cached:` tests
Python truthiness, so an absent code and a cached-but-falsy (empty)
geometry take the same `raise`. -/
def get_region_geometry {G : Type} (api : GeosApi G)
    (cache : List (String × G)) (region_code : String) : Except String G :=
  match dictGet cache region_code with
  | some cached =>
      if api.isTruthy cached then .ok cached
      else .error ("There was no cached geometry for " ++ region_code)
  | none => .error ("There was no cached geometry for " ++ region_code)

/-! ### Clip decision heuristic (source lines 81-109) -/

/-- The vertex scan of `polygon_requires_clipping` (source lines 92-109):
dispatch on `geom_type`, look the region geometry up, then return true
at the first vertex of any ring not contained in the region geometry,
false if the full scan passes. -/
def vertex_scan {G : Type} (api : GeosApi G) (cache : List (String × G))
    (polygon : G) (region_code : String) : Except String Bool :=
  match (if api.geomType polygon == "MultiPolygon" then
           some (api.multiCoords polygon)
         else if api.geomType polygon == "Polygon" then
           some [api.polygonCoords polygon]
         else none) with
  | none => .error ("Unknown geom_type " ++ api.geomType polygon)
  | some polygons =>
    match get_region_geometry api cache region_code with
    | .error e => .error e
    | .ok region_geometry =>
        .ok (polygons.any (fun p =>
          p.any (fun t => t.any (fun v => ! api.containsPt region_geometry v))))

/-- `polygon_requires_clipping` (source lines 81-109).  `inland` is the
global `inland_sectors_by_region_code` (None, or a dict from region code
to a set of sectors); note `inland_sectors_by_region_code[region_code]`
raises `KeyError` when the region code is not a key of the table. -/
def polygon_requires_clipping {G : Type} (api : GeosApi G)
    (inland : Option (List (String × List String)))
    (cache : List (String × G)) (polygon : G) (region_code : String)
    (postcodeHint : Option String) : Except String Bool :=
  match inland with
  | some tbl =>
    if usableHint postcodeHint then
      match dictGet tbl region_code with
      | none => .error ("KeyError: " ++ region_code)
      | some sectors =>
          if sectors.contains (postcode_to_sector (postcodeHint.getD "")) then
            .ok false
          else vertex_scan api cache polygon region_code
    else vertex_scan api cache polygon region_code
  | none => vertex_scan api cache polygon region_code

/-! ### Clipping (source lines 112-135) -/

/-- `drop_non_polygons` (source lines 112-118): keep only the Polygon and
MultiPolygon members of a collection and union them. -/
def drop_non_polygons {G : Type} (api : GeosApi G) (geometry_collection : G) : G :=
  api.collectionUnion ((api.members geometry_collection).filter
    (fun g => api.geomType g == "Polygon" || api.geomType g == "MultiPolygon"))

/-- `clip_unioned` (source lines 121-135). -/
def clip_unioned {G : Type} (api : GeosApi G)
    (inland : Option (List (String × List String)))
    (cache : List (String × G)) (polygon : G) (region_code : String)
    (postcodeHint : Option String := none) : Except String G :=
  match polygon_requires_clipping api inland cache polygon region_code postcodeHint with
  | .error e => .error e
  | .ok false => .ok polygon
  | .ok true =>
    match get_region_geometry api cache region_code with
    | .error e => .error e
    | .ok gb_region_geom =>
      if ! api.intersects polygon gb_region_geom then .ok polygon
      else
        let after_intersection := api.intersection polygon gb_region_geom
        if api.geomType after_intersection == "GeometryCollection" then
          .ok (drop_non_polygons api after_intersection)
        else .ok after_intersection

/-! ### Streaming GeoJSON serializer (source lines 138-150)

`fast_geojson_output` writes to a file; the embedding returns the string
written.  `json.dumps(properties, sort_keys=True)` is embedded for the
string-valued dictionaries the command uses: entries sorted by key,
rendered with the default `", "` and `": "` separators and JSON string
escaping. -/

/-- Lower-case hexadecimal digit. -/
def hexDigit (n : Nat) : Char :=
  if n < 10 then Char.ofNat (48 + n) else Char.ofNat (87 + n)

/-- JSON escaping of one character (`json.dumps` default table for ASCII
input: the two-character escapes, `\uXXXX` for other control characters). -/
def jsonEscapeChar (c : Char) : String :=
  if c == '"' then "\\\""
  else if c == '\\' then "\\\\"
  else if c == '\n' then "\\n"
  else if c == '\t' then "\\t"
  else if c == '\r' then "\\r"
  else if c == '\x08' then "\\b"
  else if c == '\x0c' then "\\f"
  else if c.toNat < 32 then
    "\\u00" ++ String.mk [hexDigit (c.toNat / 16), hexDigit (c.toNat % 16)]
  else String.singleton c

/-- JSON escaping of a string. -/
def jsonEscape (s : String) : String :=
  String.join (s.toList.map jsonEscapeChar)

/-- Ordering of property entries by key, as produced by
`sort_keys=True` (dictionary keys are unique, so comparing keys
suffices). -/
def keyLE (a b : String × String) : Prop := a.1 ≤ b.1

instance : DecidableRel keyLE :=
  fun a b => inferInstanceAs (Decidable (a.1 ≤ b.1))

instance : IsTotal (String × String) keyLE :=
  ⟨fun a b => le_total a.1 b.1⟩

instance : IsTrans (String × String) keyLE :=
  ⟨fun _ _ _ h1 h2 => le_trans h1 h2⟩

/-- The key-sorted entry list of a properties dictionary. -/
def sortProps (props : List (String × String)) : List (String × String) :=
  props.insertionSort keyLE

/-- `json.dumps(properties, sort_keys=True)` for a string-valued dict. -/
def json_dumps_sorted (props : List (String × String)) : String :=
  "\x7b" ++ String.intercalate ", " ((sortProps props).map
    (fun kv => "\"" ++ jsonEscape kv.1 ++ "\": \"" ++ jsonEscape kv.2 ++ "\"")) ++ "\x7d"

/-- The feature object written for one `(properties, polygon)` entry
(source lines 145-148). -/
def feature_string {G : Type} (api : GeosApi G)
    (entry : (List (String × String)) × G) : String :=
  "\x7b\"type\": \"Feature\", \"geometry\": " ++ api.jsonRepr entry.2 ++
    ", \"properties\": " ++ json_dumps_sorted entry.1 ++ "\x7d"

/-- The loop body of `fast_geojson_output` (source lines 141-149), with
the `first_item` flag threaded explicitly. -/
def features_body {G : Type} (api : GeosApi G) :
    Bool → List ((List (String × String)) × G) → String
  | _, [] => ""
  | first_item, entry :: rest =>
      (if first_item then "" else ",") ++ feature_string api entry ++
        features_body api false rest

/-- `fast_geojson_output` (source lines 138-150): the full string written
to the output file. -/
def fast_geojson_output {G : Type} (api : GeosApi G)
    (postcodes_and_polygons : List ((List (String × String)) × G)) : String :=
  "\x7b\"type\": \"FeatureCollection\", \"features\": [" ++
    features_body api true postcodes_and_polygons ++ "]\x7d"

/-! ### Per-entity processing (source lines 153-201 and 273-335)

The database and filesystem are external collaborators: the inputs a
worker fetches (the pre-unioned polygon of a region group, a vertical
street row) are taken as arguments, and the embedding returns the data
that would be written, or the raised exception. -/

/-- One iteration of the per-region loop of `process_level` (source lines
303-317), producing the polygon appended to `final_polygons_per_region`.
`fix` models `fix_invalid_geos_geometry`.  The warning print at source
line 311 interpolates the name `postcode`, which is bound nowhere in
`process_level` (only the list `postcodes` is; Python 3 comprehension
variables do not leak), so entering the invalid branch raises a
`NameError` before `fix` is ever called. -/
def process_level_step {G : Type} (api : GeosApi G)
    (inland : Option (List (String × List String)))
    (cache : List (String × G)) (_fix : G → Option G)
    (unioned : G) (region_code : String) (pfx : String) :
    Except String (Option G) :=
  match clip_unioned api inland cache unioned region_code (some pfx) with
  | .error e => .error e
  | .ok clipped =>
    let wgs_84_clipped_polygon := api.transform4326 clipped
    if ! api.isValid wgs_84_clipped_polygon then
      .error "NameError: name postcode is not defined"
    else
      .ok (some wgs_84_clipped_polygon)

/-- One row of the vertical-street query (source lines 158-172): the
grouped point (as WKT), its distinct postcodes and region codes, the
UPRNs, and the Voronoi polygon fetched for the group's region id. -/
structure VerticalStreetRow (G : Type) where
  point_wkt : String
  postcodes : List String
  region_codes : List String
  uprns : List String
  polygon : G

/-- `process_vertical_street` (source lines 153-201), returning the
diagnostics printed and the features written for the group.  The
filename computation (source lines 196-199) is filesystem naming and is
not modelled.  As in `process_level`, the name `postcode` interpolated
by the warning print at source line 179 is unbound (the function binds
`postcodes`), so the invalid-geometry branch raises a `NameError`. -/
def process_vertical_street {G : Type} (api : GeosApi G)
    (inland : Option (List (String × List String)))
    (cache : List (String × G)) (_fix : G → Option G)
    (row : VerticalStreetRow G) :
    Except String (List String × List ((List (String × String)) × G)) :=
  if row.region_codes.length > 1 then
    .ok (["Multiple region codes found (!!!) at " ++ row.point_wkt], [])
  else
    match row.region_codes with
    | [] => .error "IndexError: list index out of range"
    | region_code :: _ =>
      match clip_unioned api inland cache row.polygon region_code with
      | .error e => .error e
      | .ok clipped =>
        let wgs_84_clipped_polygon := api.transform4326 clipped
        if ! api.isValid wgs_84_clipped_polygon then
          .error "NameError: name postcode is not defined"
        else
          .ok ([], [([("postcodes", String.intercalate ", " row.postcodes),
                      ("uprns", String.intercalate ", " row.uprns),
                      ("region_codes", String.intercalate ", " row.region_codes)],
                     wgs_84_clipped_polygon)])

/-! ### Region loading in `Command.handle` (source lines 23-36, 396-404) -/

/-- `region_code_to_name` (source lines 23-35). -/
def region_code_to_name : List (String × String) :=
  [("EE", "Eastern Euro Region"),
   ("EM", "East Midlands Euro Region"),
   ("LN", "London Euro Region"),
   ("NE", "North East Euro Region"),
   ("NW", "North West Euro Region"),
   ("SC", "Scotland Euro Region"),
   ("SE", "South East Euro Region"),
   ("SW", "South West Euro Region"),
   ("WA", "Wales Euro Region"),
   ("WM", "West Midlands Euro Region"),
   ("YH", "Yorkshire and the Humber Euro Region")]

/-- `region_name_to_code` (source line 36). -/
def region_name_to_code : List (String × String) :=
  region_code_to_name.map (fun kv => (kv.2, kv.1))

/-- The region-loading loop of `Command.handle` (source lines 397-404),
folded over the shapefile features `(NAME attribute, geometry)` starting
from the given cache state: an unknown name is a `KeyError`, a region
code already cached is a `CommandError`, otherwise the geometry is
inserted and the loop continues. -/
def load_regions_from {G : Type} (cache : List (String × G)) :
    List (String × G) → Except String (List (String × G))
  | [] => .ok cache
  | feature :: rest =>
    match dictGet region_name_to_code feature.1 with
    | none => .error ("KeyError: " ++ feature.1)
    | some region_code =>
      match dictGet cache region_code with
      | some _ =>
          .error ("There were multiple regions for " ++ region_code ++
            " (" ++ feature.1 ++ ") in the regions shapefile")
      | none => load_regions_from (cache ++ [(region_code, feature.2)]) rest

/-- Loading the regions layer into the (initially empty) cache. -/
def load_regions {G : Type} (features : List (String × G)) :
    Except String (List (String × G)) :=
  load_regions_from [] features

/-- The ordering of `Command.handle` (source lines 396-428): regions are
loaded first; only on success is any work dispatched to the pool (the
dispatched work list is produced together with the cache). -/
def handle_regions {G : Type} (features : List (String × G))
    (work : List String) :
    Except String ((List (String × G)) × List String) :=
  match load_regions features with
  | .error e => .error e
  | .ok cache => .ok (cache, work)

/-- The worker-pool size expression `cpu_count() - 2`, used verbatim at
all three `Pool(...)` construction sites (source lines 424, 464, 497).
Python `int` subtraction, so the result may be zero or negative. -/
def pool_processes (cpu_count : Nat) : Int := (cpu_count : Int) - 2

/-! ### A concrete executable geometry model

`FinGeom` instantiates `GeosApi` for concrete evaluation: a geometry is
a type tag, the ring data a Polygon/MultiPolygon exposes through
`coords`, collection members, and a finite set of own footprint points.
The footprint of a node is its own point set united with its members'
footprints, which makes the collection-membership law hold by
construction. -/

inductive FinGeom where
  | node (ty : String) (rings : List (List Pt))
      (mrings : List (List (List Pt))) (mems : List FinGeom)
      (own : Finset Pt)

mutual

def FinGeom.extent : FinGeom → Finset Pt
  | .node _ _ _ mems own => own ∪ FinGeom.extentList mems

def FinGeom.extentList : List FinGeom → Finset Pt
  | [] => ∅
  | g :: gs => FinGeom.extent g ∪ FinGeom.extentList gs

end

def FinGeom.ty : FinGeom → String
  | .node t _ _ _ _ => t

def FinGeom.rings : FinGeom → List (List Pt)
  | .node _ r _ _ _ => r

def FinGeom.mrings : FinGeom → List (List (List Pt))
  | .node _ _ mr _ _ => mr

def FinGeom.mems : FinGeom → List FinGeom
  | .node _ _ _ m _ => m

theorem FinGeom.extentList_eq_foldr (gs : List FinGeom) :
    FinGeom.extentList gs = gs.foldr (fun g s => FinGeom.extent g ∪ s) ∅ := by
  induction gs with
  | nil => rfl
  | cons g gs ih => simp [FinGeom.extentList, ih]

theorem FinGeom.extent_of_mem {m : FinGeom} :
    ∀ {gs : List FinGeom}, m ∈ gs → m.extent ⊆ FinGeom.extentList gs := by
  intro gs h
  induction gs with
  | nil => cases h
  | cons g gs ih =>
    rcases List.mem_cons.mp h with h | h
    · subst h
      simp only [FinGeom.extentList]
      exact Finset.subset_union_left
    · simp only [FinGeom.extentList]
      exact (ih h).trans Finset.subset_union_right

/-- A `GeosApi` model over `FinGeom` in which `intersection` produces a
GeometryCollection holding one Polygon member (the degenerate case that
`drop_non_polygons` exists for). -/
def toyApi : GeosApi FinGeom where
  geomType := FinGeom.ty
  polygonCoords := FinGeom.rings
  multiCoords := FinGeom.mrings
  members := FinGeom.mems
  containsPt := fun g p => decide (p ∈ g.extent)
  intersects := fun a b => decide ((a.extent ∩ b.extent).Nonempty)
  intersection := fun a b =>
    .node "GeometryCollection" [] []
      [.node "Polygon" [] [] [] (a.extent ∩ b.extent)] ∅
  collectionUnion := fun gs => .node "MultiPolygon" [] [] [] (FinGeom.extentList gs)
  isTruthy := fun g => decide g.extent.Nonempty
  transform4326 := id
  isValid := fun g => decide g.extent.Nonempty
  jsonRepr := fun _ => "null"
  extent := FinGeom.extent
  h_intersects := by intro a b; simp
  h_inter_extent := by
    intro a b
    simp [FinGeom.extent, FinGeom.extentList]
  h_member_extent := by
    intro g m hm
    cases g with
    | node t r mr mems own =>
      simp only [FinGeom.mems] at hm
      refine (FinGeom.extent_of_mem hm).trans ?_
      simp only [FinGeom.extent]
      exact Finset.subset_union_right
  h_union_extent := by
    intro gs
    simp [FinGeom.extent, FinGeom.extentList_eq_foldr]

/-- A second model, identical except that `intersection` returns a plain
Polygon (the common, non-degenerate case). -/
def toyApiPoly : GeosApi FinGeom :=
  { toyApi with
    intersection := fun a b => .node "Polygon" [] [] [] (a.extent ∩ b.extent)
    h_inter_extent := by
      intro a b
      simp [toyApi, FinGeom.extent, FinGeom.extentList] }

/-! ### Concrete fixtures for evaluation -/

/-- A truthy coastline geometry whose footprint is the single point
`(0, 0)`. -/
def regionSC : FinGeom := .node "Polygon" [[(0, 0)]] [] [] {(0, 0)}

/-- A falsy (empty) geometry. -/
def emptyRegion : FinGeom := .node "Polygon" [] [] [] ∅

def toyCache : List (String × FinGeom) := [("SC", regionSC)]

def toyCacheSE : List (String × FinGeom) := [("SE", regionSC)]

def inlandTbl : List (String × List String) := [("SC", ["AB1 1"])]

/-- A polygon all of whose vertices lie inside `regionSC`. -/
def polyInside : FinGeom := .node "Polygon" [[(0, 0)]] [] [] {(0, 0)}

/-- A polygon with a vertex outside `regionSC`, spatially disjoint from it. -/
def polyOutside : FinGeom := .node "Polygon" [[(9, 9)]] [] [] {(9, 9)}

/-- A polygon with a vertex outside `regionSC` whose footprint overlaps it. -/
def polyOverlap : FinGeom := .node "Polygon" [[(9, 9)]] [] [] {(0, 0), (9, 9)}

/-- A polygon with an empty footprint: in the toy models it fails the
validity check after reprojection. -/
def polyNoFoot : FinGeom := .node "Polygon" [[(9, 9)]] [] [] ∅

/-! ### C10 — `get_region_geometry` and empty cached geometries -/

/-- **C10**: `get_region_geometry` raises the missing-region error not
only when the region code was never loaded, but also whenever the cached
geometry is falsy (empty); a truthy cached geometry is returned. -/
theorem get_region_geometry_requires_truthy {G : Type} (api : GeosApi G)
    (cache : List (String × G)) (region_code : String) :
    (dictGet cache region_code = none →
      get_region_geometry api cache region_code =
        .error ("There was no cached geometry for " ++ region_code)) ∧
    (∀ g, dictGet cache region_code = some g → api.isTruthy g = false →
      get_region_geometry api cache region_code =
        .error ("There was no cached geometry for " ++ region_code)) ∧
    (∀ g, dictGet cache region_code = some g → api.isTruthy g = true →
      get_region_geometry api cache region_code = .ok g) := by
  refine ⟨fun h => ?_, fun g h ht => ?_, fun g h ht => ?_⟩
  · simp [get_region_geometry, h]
  · simp [get_region_geometry, h, ht]
  · simp [get_region_geometry, h, ht]

/-- Witness for C10 at concrete inputs: an empty cached geometry is
reported as missing, a truthy one is returned. -/
theorem get_region_geometry_requires_truthy_witness :
    get_region_geometry toyApi [("SC", emptyRegion)] "SC" =
      .error "There was no cached geometry for SC" ∧
    get_region_geometry toyApi toyCache "SC" = .ok regionSC :=
  ⟨(get_region_geometry_requires_truthy toyApi [("SC", emptyRegion)] "SC").2.1
      emptyRegion rfl rfl,
   (get_region_geometry_requires_truthy toyApi toyCache "SC").2.2
      regionSC rfl rfl⟩

/-! ### C9 — worker pool size -/

/-- **C9** (counterexample): the pool size expression has no floor of
one.  With two available CPUs every `Pool(...)` construction site
receives `0` workers, which is not `≥ 1` (and makes `Pool` raise). -/
theorem pool_processes_no_floor :
    pool_processes 2 = 0 ∧ ¬ (1 ≤ pool_processes 2) := by decide

/-- **C9** (amended): every pool is constructed with exactly
`cpu_count - 2` workers — available parallelism minus a margin of two,
with no floor — so the count is positive only when at least three CPUs
are available. -/
theorem pool_processes_margin (cpu_count : Nat) :
    pool_processes cpu_count = (cpu_count : Int) - 2 ∧
      (3 ≤ cpu_count → 1 ≤ pool_processes cpu_count) := by
  refine ⟨rfl, fun h => ?_⟩
  simp only [pool_processes]
  omega

/-- Witness for C9 (amended) at four CPUs. -/
theorem pool_processes_margin_witness :
    pool_processes 4 = (4 : Int) - 2 ∧ 1 ≤ pool_processes 4 :=
  ⟨(pool_processes_margin 4).1, (pool_processes_margin 4).2 (by decide)⟩

/-! ### C8 — the serializer -/

/-- `sep ++ x₁ ++ sep ++ x₂ ++ ...`: the tail of a separated join. -/
def sepChain (sep : String) : List String → String
  | [] => ""
  | x :: xs => sep ++ (x ++ sepChain sep xs)

theorem intercalate_go_eq (sep : String) :
    ∀ (xs : List String) (acc : String),
      String.intercalate.go acc sep xs = acc ++ sepChain sep xs := by
  intro xs
  induction xs with
  | nil => intro acc; simp [String.intercalate.go, sepChain]
  | cons x xs ih =>
    intro acc
    simp [String.intercalate.go, sepChain, ih, String.append_assoc]

theorem intercalate_eq_sepChain (sep : String) (xs : List String) :
    ∀ x, String.intercalate sep (x :: xs) = x ++ sepChain sep xs := by
  intro x
  simp [String.intercalate, intercalate_go_eq]

theorem features_body_false_eq {G : Type} (api : GeosApi G) :
    ∀ entries, features_body api false entries =
      sepChain "," (entries.map (feature_string api)) := by
  intro entries
  induction entries with
  | nil => rfl
  | cons e rest ih =>
    simp [features_body, sepChain, ih, String.append_assoc]

theorem features_body_true_eq {G : Type} (api : GeosApi G) :
    ∀ entries, features_body api true entries =
      String.intercalate "," (entries.map (feature_string api)) := by
  intro entries
  cases entries with
  | nil => rfl
  | cons e rest =>
    simp [features_body, intercalate_eq_sepChain, features_body_false_eq]

/-- **C8**: with zero entries the serializer writes exactly
`{"type": "FeatureCollection", "features": []}`; in general it writes
the feature objects joined by single commas with no trailing comma, each
feature embedding the raw geometry representation and a properties
object whose keys are serialized in sorted order. -/
theorem fast_geojson_output_spec :
    (∀ (G : Type) (api : GeosApi G),
      fast_geojson_output api [] =
        "\x7b\"type\": \"FeatureCollection\", \"features\": []\x7d") ∧
    (∀ (G : Type) (api : GeosApi G) entries,
      fast_geojson_output api entries =
        "\x7b\"type\": \"FeatureCollection\", \"features\": [" ++
          String.intercalate "," (entries.map (feature_string api)) ++ "]\x7d") ∧
    (∀ props, List.Sorted (fun a b : String => a ≤ b)
        ((sortProps props).map Prod.fst)) := by
  refine ⟨fun G api => rfl, fun G api entries => ?_, fun props => ?_⟩
  · simp [fast_geojson_output, features_body_true_eq]
  · have h : List.Pairwise keyLE (sortProps props) :=
      List.sorted_insertionSort keyLE props
    exact List.Pairwise.map Prod.fst (fun a b hab => hab) h

/-! ### C1, C2, C7 — `clip_unioned` -/

/-- **C1**: for every polygon, region code and hint, if the clip decision
heuristic reports that no clipping is required, or the polygon's
footprint is disjoint from the region's (successfully looked-up)
coastline geometry, then `clip_unioned` returns the input polygon
unchanged — no intersection is computed. -/
theorem clip_unioned_keeps_union {G : Type} (api : GeosApi G)
    (inland : Option (List (String × List String)))
    (cache : List (String × G)) (polygon : G) (region_code : String)
    (postcodeHint : Option String) :
    (polygon_requires_clipping api inland cache polygon region_code postcodeHint =
        .ok false →
      clip_unioned api inland cache polygon region_code postcodeHint = .ok polygon) ∧
    (∀ g b, get_region_geometry api cache region_code = .ok g →
      polygon_requires_clipping api inland cache polygon region_code postcodeHint =
        .ok b →
      api.extent polygon ∩ api.extent g = ∅ →
      clip_unioned api inland cache polygon region_code postcodeHint = .ok polygon) := by
  constructor
  · intro h
    simp [clip_unioned, h]
  · intro g b hg hb hdisj
    have hne : ¬ (api.extent polygon ∩ api.extent g).Nonempty := by
      rw [hdisj]
      exact Finset.not_nonempty_empty
    have hfalse : api.intersects polygon g = false :=
      Bool.eq_false_iff.mpr (fun htrue => hne ((api.h_intersects _ _).mp htrue))
    cases b
    · simp [clip_unioned, hb]
    · simp [clip_unioned, hb, hg, hfalse]

/-- Witness for C1: the fast inland-sector path, and a polygon disjoint
from the coastline, both keep the un-clipped union. -/
theorem clip_unioned_keeps_union_witness :
    clip_unioned toyApi (some inlandTbl) toyCache polyOutside "SC"
        (some "AB1 1AA") = .ok polyOutside ∧
    clip_unioned toyApi none toyCache polyOutside "SC" none = .ok polyOutside :=
  ⟨(clip_unioned_keeps_union toyApi (some inlandTbl) toyCache polyOutside "SC"
      (some "AB1 1AA")).1 rfl,
   (clip_unioned_keeps_union toyApi none toyCache polyOutside "SC" none).2
      regionSC true rfl rfl (by decide)⟩

theorem foldr_union_subset {G : Type} (api : GeosApi G) (S : Finset Pt) :
    ∀ (L : List G), (∀ m ∈ L, api.extent m ⊆ S) →
      L.foldr (fun g s => api.extent g ∪ s) ∅ ⊆ S := by
  intro L h
  induction L with
  | nil => simp
  | cons x xs ih =>
    simp only [List.foldr_cons]
    exact Finset.union_subset (h x (List.mem_cons_self x xs))
      (ih (fun m hm => h m (List.mem_cons_of_mem x hm)))

/-- **C2**: clipping never expands coverage — whatever `clip_unioned`
returns lies inside the union of the region's coastline with the
original polygon, and whenever the intersection branch is actually taken
(clipping required and the polygon intersects the coastline) the result
lies inside the coastline alone. -/
theorem clip_unioned_no_expand {G : Type} (api : GeosApi G)
    (inland : Option (List (String × List String)))
    (cache : List (String × G)) (polygon : G) (region_code : String)
    (postcodeHint : Option String) :
    ∀ g result, get_region_geometry api cache region_code = .ok g →
      clip_unioned api inland cache polygon region_code postcodeHint = .ok result →
      (api.extent result ⊆ api.extent g ∪ api.extent polygon) ∧
      (polygon_requires_clipping api inland cache polygon region_code postcodeHint =
          .ok true →
        api.intersects polygon g = true →
        api.extent result ⊆ api.extent g) := by
  intro g result hg hclip
  have hinter_sub : ∀ m, m ∈ api.members (api.intersection polygon g) →
      api.extent m ⊆ api.extent g := by
    intro m hm
    refine (api.h_member_extent _ _ hm).trans ?_
    rw [api.h_inter_extent]
    exact Finset.inter_subset_right
  have hdrop : api.extent (drop_non_polygons api (api.intersection polygon g)) ⊆
      api.extent g := by
    rw [drop_non_polygons, api.h_union_extent]
    exact foldr_union_subset api _ _
      (fun m hm => hinter_sub m (List.mem_of_mem_filter hm))
  cases hreq : polygon_requires_clipping api inland cache polygon region_code
      postcodeHint with
  | error e => simp [clip_unioned, hreq] at hclip
  | ok b =>
    cases b with
    | false =>
      have : result = polygon := by
        simp [clip_unioned, hreq] at hclip
        exact hclip.symm
      subst this
      exact ⟨Finset.subset_union_right, fun h => by cases h⟩
    | true =>
      cases hint : api.intersects polygon g with
      | false =>
        have : result = polygon := by
          simp [clip_unioned, hreq, hg, hint] at hclip
          exact hclip.symm
        subst this
        exact ⟨Finset.subset_union_right, fun _ h => by cases h⟩
      | true =>
        cases hty : api.geomType (api.intersection polygon g) == "GeometryCollection" with
        | true =>
          have : result = drop_non_polygons api (api.intersection polygon g) := by
            simp [clip_unioned, hreq, hg, hint, hty] at hclip
            exact hclip.symm
          subst this
          exact ⟨hdrop.trans Finset.subset_union_left, fun _ _ => hdrop⟩
        | false =>
          have : result = api.intersection polygon g := by
            simp [clip_unioned, hreq, hg, hint, hty] at hclip
            exact hclip.symm
          subst this
          have hsub : api.extent (api.intersection polygon g) ⊆ api.extent g := by
            rw [api.h_inter_extent]
            exact Finset.inter_subset_right
          exact ⟨hsub.trans Finset.subset_union_left, fun _ _ => hsub⟩

/-- The clipped result for the overlapping fixture in the toy model. -/
def clipOverlapRes : FinGeom :=
  drop_non_polygons toyApi (toyApi.intersection polyOverlap regionSC)

/-- Witness for C2: a polygon exceeding the coastline is clipped to
something inside the coastline (hence inside coastline ∪ original). -/
theorem clip_unioned_no_expand_witness :
    toyApi.extent clipOverlapRes ⊆
      toyApi.extent regionSC ∪ toyApi.extent polyOverlap ∧
    toyApi.extent clipOverlapRes ⊆ toyApi.extent regionSC :=
  ⟨(clip_unioned_no_expand toyApi none toyCache polyOverlap "SC" none regionSC
      clipOverlapRes rfl rfl).1,
   (clip_unioned_no_expand toyApi none toyCache polyOverlap "SC" none regionSC
      clipOverlapRes rfl rfl).2 rfl rfl⟩

/-- **C7**: when the intersection branch of `clip_unioned` is taken, a
GeometryCollection intersection result is replaced by the union of its
Polygon and MultiPolygon members (every other member is discarded),
while a Polygon or MultiPolygon intersection result is returned as is. -/
theorem clip_unioned_collection_filter {G : Type} (api : GeosApi G)
    (inland : Option (List (String × List String)))
    (cache : List (String × G)) (polygon : G) (region_code : String)
    (postcodeHint : Option String) :
    ∀ g, get_region_geometry api cache region_code = .ok g →
      polygon_requires_clipping api inland cache polygon region_code postcodeHint =
        .ok true →
      api.intersects polygon g = true →
      (api.geomType (api.intersection polygon g) = "GeometryCollection" →
        clip_unioned api inland cache polygon region_code postcodeHint =
          .ok (api.collectionUnion
            ((api.members (api.intersection polygon g)).filter
              (fun m => api.geomType m == "Polygon" ||
                api.geomType m == "MultiPolygon")))) ∧
      ((api.geomType (api.intersection polygon g) = "Polygon" ∨
        api.geomType (api.intersection polygon g) = "MultiPolygon") →
        clip_unioned api inland cache polygon region_code postcodeHint =
          .ok (api.intersection polygon g)) := by
  intro g hg hreq hint
  constructor
  · intro hty
    simp [clip_unioned, hreq, hg, hint, hty, drop_non_polygons]
  · intro hty
    have hne : (api.geomType (api.intersection polygon g) ==
        "GeometryCollection") = false := by
      rcases hty with h | h <;> simp [h]
    simp [clip_unioned, hreq, hg, hint, hne]

/-- Witness for C7: in the toy model where the intersection degenerates
into a collection, the result is the re-unioned polygonal members; in
the model where the intersection is a plain Polygon it is returned
as is. -/
theorem clip_unioned_collection_filter_witness :
    clip_unioned toyApi none toyCache polyOverlap "SC" none =
      .ok (toyApi.collectionUnion
        ((toyApi.members (toyApi.intersection polyOverlap regionSC)).filter
          (fun m => toyApi.geomType m == "Polygon" ||
            toyApi.geomType m == "MultiPolygon"))) ∧
    clip_unioned toyApiPoly none toyCache polyOverlap "SC" none =
      .ok (toyApiPoly.intersection polyOverlap regionSC) :=
  ⟨(clip_unioned_collection_filter toyApi none toyCache polyOverlap "SC" none
      regionSC rfl rfl rfl).1 rfl,
   (clip_unioned_collection_filter toyApiPoly none toyCache polyOverlap "SC" none
      regionSC rfl rfl rfl).2 (Or.inl rfl)⟩

/-! ### C3 — the two-path clip decision heuristic -/

/-- **C3** (counterexample): the fast path does not agree with the full
vertex scan for an arbitrary sector present in the inland table.  With
the table listing sector "AB1 1" as inland for region SC while the
polygon for "AB1 1AA" has a vertex outside the coastline, the fast path
reports `False` though the full vertex scan reports `True` — a false
negative of the fast path relative to the scan. -/
theorem requires_clipping_fast_path_false_negative :
    polygon_requires_clipping toyApi (some inlandTbl) toyCache polyOutside "SC"
        (some "AB1 1AA") = .ok false ∧
    vertex_scan toyApi toyCache polyOutside "SC" = .ok true :=
  ⟨rfl, rfl⟩

/-- **C3** (amended): `polygon_requires_clipping` follows the two-path
algorithm.  When the inland table is loaded and the usable hint's sector
is listed for the contributing region, it returns false immediately
(for every cache and polygon — no vertex test).  When the table is
absent, the hint unusable, or the sector not listed, it performs exactly
the full vertex scan (when the table is loaded and consulted but the
region code is not a key of it, it instead raises a `KeyError`).  The
fast path agrees with the full vertex scan provided every vertex of the
(single- or multi-) polygon is contained in the region's coastline
geometry — i.e. provided the table entry is truthful; an untruthful
entry yields a false negative, as the counterexample shows. -/
theorem polygon_requires_clipping_two_path {G : Type} (api : GeosApi G)
    (tbl : List (String × List String)) (cache : List (String × G))
    (polygon : G) (region_code : String) (postcodeHint : Option String) :
    (∀ sectors, usableHint postcodeHint = true →
      dictGet tbl region_code = some sectors →
      sectors.contains (postcode_to_sector (postcodeHint.getD "")) = true →
      polygon_requires_clipping api (some tbl) cache polygon region_code
        postcodeHint = .ok false) ∧
    (polygon_requires_clipping api none cache polygon region_code postcodeHint =
      vertex_scan api cache polygon region_code) ∧
    (usableHint postcodeHint = false →
      polygon_requires_clipping api (some tbl) cache polygon region_code
        postcodeHint = vertex_scan api cache polygon region_code) ∧
    (∀ sectors, usableHint postcodeHint = true →
      dictGet tbl region_code = some sectors →
      sectors.contains (postcode_to_sector (postcodeHint.getD "")) = false →
      polygon_requires_clipping api (some tbl) cache polygon region_code
        postcodeHint = vertex_scan api cache polygon region_code) ∧
    (usableHint postcodeHint = true → dictGet tbl region_code = none →
      polygon_requires_clipping api (some tbl) cache polygon region_code
        postcodeHint = .error ("KeyError: " ++ region_code)) ∧
    (∀ g, get_region_geometry api cache region_code = .ok g →
      (api.geomType polygon = "Polygon" →
        (∀ t ∈ api.polygonCoords polygon, ∀ v ∈ t, api.containsPt g v = true) →
        vertex_scan api cache polygon region_code = .ok false) ∧
      (api.geomType polygon = "MultiPolygon" →
        (∀ p ∈ api.multiCoords polygon, ∀ t ∈ p, ∀ v ∈ t,
          api.containsPt g v = true) →
        vertex_scan api cache polygon region_code = .ok false)) := by
  refine ⟨fun sectors hu ht hc => ?_, rfl, fun hu => ?_,
    fun sectors hu ht hc => ?_, fun hu ht => ?_, fun g hg => ⟨?_, ?_⟩⟩
  · have hc' : postcode_to_sector (postcodeHint.getD "") ∈ sectors := by
      simpa using hc
    simp [polygon_requires_clipping, hu, ht, hc']
  · simp [polygon_requires_clipping, hu]
  · have hc' : postcode_to_sector (postcodeHint.getD "") ∉ sectors := by
      simpa using hc
    simp [polygon_requires_clipping, hu, ht, hc']
  · simp [polygon_requires_clipping, hu, ht]
  · intro hty hall
    have hb : ([api.polygonCoords polygon].any (fun p =>
        p.any (fun t => t.any (fun v => ! api.containsPt g v)))) = false := by
      rw [List.any_eq_false]
      intro p hp
      rw [Bool.not_eq_true, List.any_eq_false]
      intro t htp
      rw [Bool.not_eq_true, List.any_eq_false]
      intro v hv
      rw [Bool.not_eq_true]
      simp [hall t (List.mem_singleton.mp hp ▸ htp) v hv]
    simp only [vertex_scan, hty, hg]
    simpa using hb
  · intro hty hall
    have hb : ((api.multiCoords polygon).any (fun p =>
        p.any (fun t => t.any (fun v => ! api.containsPt g v)))) = false := by
      rw [List.any_eq_false]
      intro p hp
      rw [Bool.not_eq_true, List.any_eq_false]
      intro t htp
      rw [Bool.not_eq_true, List.any_eq_false]
      intro v hv
      rw [Bool.not_eq_true]
      simp [hall p hp t htp v hv]
    simp only [vertex_scan, hty, hg]
    simpa using hb

/-- Witness for C3 (amended) at concrete inputs: the fast path fires for
a listed sector; without a table the heuristic is exactly the scan; the
scan reports false for a polygon whose vertices all lie inland. -/
theorem polygon_requires_clipping_two_path_witness :
    polygon_requires_clipping toyApi (some inlandTbl) toyCache polyInside "SC"
        (some "AB1 1AA") = .ok false ∧
    polygon_requires_clipping toyApi none toyCache polyInside "SC" none =
      vertex_scan toyApi toyCache polyInside "SC" ∧
    vertex_scan toyApi toyCache polyInside "SC" = .ok false :=
  ⟨(polygon_requires_clipping_two_path toyApi inlandTbl toyCache polyInside "SC"
      (some "AB1 1AA")).1 ["AB1 1"] rfl rfl rfl,
   (polygon_requires_clipping_two_path toyApi inlandTbl toyCache polyInside "SC"
      none).2.1,
   ((polygon_requires_clipping_two_path toyApi inlandTbl toyCache polyInside "SC"
      none).2.2.2.2.2 regionSC rfl).1 rfl (by decide)⟩

/-! ### C6 — duplicate regions in the boundary source -/

/-- Whether an `Except` computation succeeded. -/
def exceptOk {ε α : Type} : Except ε α → Bool
  | .ok _ => true
  | .error _ => false

theorem dictGet_cons {α : Type} (kv : String × α) (d : List (String × α))
    (k : String) :
    dictGet (kv :: d) k = if kv.1 == k then some kv.2 else dictGet d k := by
  by_cases h : (kv.1 == k) = true
  · simp [dictGet, List.find?_cons_of_pos, h]
  · simp only [Bool.not_eq_true] at h
    simp [dictGet, List.find?_cons_of_neg, h]

theorem dictGet_append_of_some {α : Type} {d₁ : List (String × α)}
    (d₂ : List (String × α)) {k : String} {v : α}
    (h : dictGet d₁ k = some v) : dictGet (d₁ ++ d₂) k = some v := by
  induction d₁ with
  | nil => simp [dictGet] at h
  | cons kv d ih =>
    rw [dictGet_cons] at h
    rw [List.cons_append, dictGet_cons]
    cases hk : (kv.1 == k) with
    | true => simp [hk] at h ⊢; exact h
    | false => simp [hk] at h ⊢; exact ih h

theorem dictGet_append_of_none {α : Type} {d₁ : List (String × α)}
    (d₂ : List (String × α)) {k : String}
    (h : dictGet d₁ k = none) : dictGet (d₁ ++ d₂) k = dictGet d₂ k := by
  induction d₁ with
  | nil => simp
  | cons kv d ih =>
    rw [dictGet_cons] at h
    rw [List.cons_append, dictGet_cons]
    cases hk : (kv.1 == k) with
    | true => simp [hk] at h
    | false => simp [hk] at h ⊢; exact ih h

/-- Once a region code is cached, the loading loop never rebinds it: it
either errors on the recurring code or leaves the binding intact. -/
theorem load_regions_from_preserves {G : Type} :
    ∀ (fs : List (String × G)) (cache out : List (String × G))
      (code : String) (g₀ : G),
      dictGet cache code = some g₀ →
      load_regions_from cache fs = .ok out →
      dictGet out code = some g₀ := by
  intro fs
  induction fs with
  | nil =>
    intro cache out code g₀ hc hl
    cases hl
    exact hc
  | cons f rest ih =>
    intro cache out code g₀ hc hl
    unfold load_regions_from at hl
    cases hname : dictGet region_name_to_code f.1 with
    | none =>
      simp only [hname] at hl
      exact Except.noConfusion hl
    | some rc =>
      simp only [hname] at hl
      cases hrc : dictGet cache rc with
      | some g =>
        simp only [hrc] at hl
        exact Except.noConfusion hl
      | none =>
        simp only [hrc] at hl
        exact ih _ _ _ _ (dictGet_append_of_some _ hc) hl

/-- If some remaining feature resolves to a code that is already cached,
loading cannot succeed. -/
theorem load_regions_from_blocked {G : Type} :
    ∀ (fs : List (String × G)) (cache : List (String × G))
      (code : String) (g₀ : G),
      dictGet cache code = some g₀ →
      (∃ f ∈ fs, dictGet region_name_to_code f.1 = some code) →
      ∀ out, load_regions_from cache fs ≠ .ok out := by
  intro fs
  induction fs with
  | nil =>
    intro cache code g₀ _ hdup out
    rcases hdup with ⟨f, hf, _⟩
    cases hf
  | cons f rest ih =>
    intro cache code g₀ hc hdup out hl
    unfold load_regions_from at hl
    cases hname : dictGet region_name_to_code f.1 with
    | none =>
      simp only [hname] at hl
      exact Except.noConfusion hl
    | some rc =>
      simp only [hname] at hl
      cases hrc : dictGet cache rc with
      | some g =>
        simp only [hrc] at hl
        exact Except.noConfusion hl
      | none =>
        simp only [hrc] at hl
        rcases hdup with ⟨f', hf', hcode⟩
        rcases List.mem_cons.mp hf' with hf' | hf'
        · subst hf'
          rw [hname] at hcode
          cases hcode
          rw [hc] at hrc
          cases hrc
        · exact ih _ _ _ (dictGet_append_of_some _ hc) ⟨f', hf', hcode⟩ out hl

theorem load_regions_from_dup {G : Type} :
    ∀ (l₁ : List (String × G)) (cache : List (String × G))
      (f₁ : String × G) (l₂ : List (String × G)) (f₂ : String × G)
      (l₃ : List (String × G)) (c : String),
      dictGet region_name_to_code f₁.1 = some c →
      dictGet region_name_to_code f₂.1 = some c →
      ∀ out, load_regions_from cache (l₁ ++ f₁ :: (l₂ ++ f₂ :: l₃)) ≠ .ok out := by
  intro l₁
  induction l₁ with
  | nil =>
    intro cache f₁ l₂ f₂ l₃ c h₁ h₂ out hl
    rw [List.nil_append] at hl
    unfold load_regions_from at hl
    simp only [h₁] at hl
    cases hc : dictGet cache c with
    | some g =>
      simp only [hc] at hl
      exact Except.noConfusion hl
    | none =>
      simp only [hc] at hl
      refine load_regions_from_blocked _ _ c f₁.2 ?_ ⟨f₂, by simp, h₂⟩ out hl
      rw [dictGet_append_of_none _ hc]
      simp [dictGet]
  | cons f l₁ ih =>
    intro cache f₁ l₂ f₂ l₃ c h₁ h₂ out hl
    rw [List.cons_append] at hl
    unfold load_regions_from at hl
    cases hname : dictGet region_name_to_code f.1 with
    | none =>
      simp only [hname] at hl
      exact Except.noConfusion hl
    | some rc =>
      simp only [hname] at hl
      cases hrc : dictGet cache rc with
      | some g =>
        simp only [hrc] at hl
        exact Except.noConfusion hl
      | none =>
        simp only [hrc] at hl
        exact ih _ f₁ l₂ f₂ l₃ c h₁ h₂ out hl

/-- **C6**: a boundary source in which two features map to the same
region code makes `Command.handle` fail before any work is dispatched
(the loader never returns a cache, so nothing reaches the pool), and the
loading loop never rebinds an already-cached code — a first feature's
geometry is never overwritten by a later one. -/
theorem handle_duplicate_region_fails {G : Type} (l₁ l₂ l₃ : List (String × G))
    (f₁ f₂ : String × G) (c : String) (work : List String) :
    dictGet region_name_to_code f₁.1 = some c →
    dictGet region_name_to_code f₂.1 = some c →
    exceptOk (handle_regions (l₁ ++ f₁ :: (l₂ ++ f₂ :: l₃)) work) = false ∧
    (∀ (cache out : List (String × G)) (code : String) (g₀ : G)
        (fs : List (String × G)),
      dictGet cache code = some g₀ →
      load_regions_from cache fs = .ok out →
      dictGet out code = some g₀) := by
  intro h₁ h₂
  constructor
  · unfold handle_regions
    cases hl : load_regions (l₁ ++ f₁ :: (l₂ ++ f₂ :: l₃)) with
    | error e => simp [exceptOk]
    | ok cache =>
      exact absurd hl (load_regions_from_dup l₁ [] f₁ l₂ f₂ l₃ c h₁ h₂ cache)
  · intro cache out code g₀ fs hc hl
    exact load_regions_from_preserves fs cache out code g₀ hc hl

/-- A boundary source naming the Scotland region twice. -/
def dupFeatures : List (String × FinGeom) :=
  [("Scotland Euro Region", regionSC), ("Scotland Euro Region", emptyRegion)]

/-- Witness for C6: loading the duplicated boundary source fails, and a
cached binding survives a successful load of further features. -/
theorem handle_duplicate_region_fails_witness :
    exceptOk (handle_regions dupFeatures ["AB"]) = false ∧
    dictGet [("SC", regionSC), ("WA", emptyRegion)] "SC" = some regionSC :=
  ⟨(handle_duplicate_region_fails [] [] []
      ("Scotland Euro Region", regionSC) ("Scotland Euro Region", emptyRegion)
      "SC" ["AB"] rfl rfl).1,
   (handle_duplicate_region_fails ([] : List (String × FinGeom)) [] []
      ("Scotland Euro Region", regionSC) ("Scotland Euro Region", emptyRegion)
      "SC" ["AB"] rfl rfl).2 [("SC", regionSC)] [("SC", regionSC), ("WA", emptyRegion)]
      "SC" regionSC [("Wales Euro Region", emptyRegion)] rfl rfl⟩

/-! ### C4, C5 — invalid reprojected geometries and vertical streets -/

/-- **C4** (code bug): `process_level` is meant to drop an entity whose
reprojected geometry is invalid and unrepaired, print a diagnostic and
continue; instead its warning print interpolates the unbound name
`postcode` (the function only binds `postcodes`), so at a region whose
reprojected polygon is invalid the worker raises a `NameError` before
the repair collaborator is even called — evaluated here on a concrete
failing input.  (`process_vertical_street` has the same unbound-name
print at source line 179; only `process_outcode`, which binds
`postcode`, implements the documented drop-and-continue recovery.) -/
theorem process_level_invalid_name_error :
    process_level_step toyApi none toyCache (fun _ => none) polyNoFoot "SC" "AB1" =
      .error "NameError: name postcode is not defined" := rfl

/-- A vertical-street row with one region code whose polygon is invalid
after reprojection in the toy model. -/
def vsRowInvalid : VerticalStreetRow FinGeom :=
  { point_wkt := "POINT (400000 300000)"
    postcodes := ["CD2 3EF", "CD2 3EG"]
    region_codes := ["SE"]
    uprns := ["1", "2"]
    polygon := polyNoFoot }

/-- A vertical-street row with two distinct region codes. -/
def vsRowMulti : VerticalStreetRow FinGeom :=
  { point_wkt := "POINT (400000 300000)"
    postcodes := ["CD2 3EF", "CD2 3EG"]
    region_codes := ["SE", "SW"]
    uprns := ["1", "2"]
    polygon := polyInside }

/-- A well-behaved vertical-street row with one region code. -/
def vsRowValid : VerticalStreetRow FinGeom :=
  { point_wkt := "POINT (400000 300000)"
    postcodes := ["CD2 3EF", "CD2 3EG"]
    region_codes := ["SE"]
    uprns := ["1", "2"]
    polygon := polyInside }

/-- **C5** (counterexample): a vertical-street group with exactly one
region code does not always emit a feature: when the clipped polygon is
invalid after reprojection the worker raises a `NameError` (unbound
`postcode` in the warning print) and nothing is written. -/
theorem process_vertical_street_single_region_crash :
    vsRowInvalid.region_codes.length = 1 ∧
    process_vertical_street toyApi none toyCacheSE (fun _ => none) vsRowInvalid =
      .error "NameError: name postcode is not defined" :=
  ⟨rfl, rfl⟩

/-- **C5** (amended): a vertical-street group listing more than one
distinct region code is skipped with a diagnostic and zero features are
emitted for that location; a group with exactly one region code emits
exactly one feature, provided its clipped polygon is still valid after
reprojection (when it is not, the command instead crashes with a
`NameError`, as the counterexample records). -/
theorem process_vertical_street_feature_count {G : Type} (api : GeosApi G)
    (inland : Option (List (String × List String)))
    (cache : List (String × G)) (fix : G → Option G)
    (row : VerticalStreetRow G) :
    (row.region_codes.length > 1 →
      process_vertical_street api inland cache fix row =
        .ok (["Multiple region codes found (!!!) at " ++ row.point_wkt], [])) ∧
    (∀ rc clipped, row.region_codes = [rc] →
      clip_unioned api inland cache row.polygon rc = .ok clipped →
      api.isValid (api.transform4326 clipped) = true →
      process_vertical_street api inland cache fix row =
        .ok ([], [([("postcodes", String.intercalate ", " row.postcodes),
                    ("uprns", String.intercalate ", " row.uprns),
                    ("region_codes", String.intercalate ", " row.region_codes)],
                   api.transform4326 clipped)])) := by
  constructor
  · intro h
    simp [process_vertical_street, h]
  · intro rc clipped hrc hclip hvalid
    have hlen : ¬ (row.region_codes.length > 1) := by
      rw [hrc]
      simp
    simp [process_vertical_street, hlen, hrc, hclip, hvalid]

/-- Witness for C5 (amended): the two-region group is skipped with a
diagnostic and zero features; the single-region group emits exactly one
feature. -/
theorem process_vertical_street_feature_count_witness :
    process_vertical_street toyApi none toyCacheSE (fun _ => none) vsRowMulti =
      .ok (["Multiple region codes found (!!!) at POINT (400000 300000)"], []) ∧
    process_vertical_street toyApi none toyCacheSE (fun _ => none) vsRowValid =
      .ok ([], [([("postcodes", "CD2 3EF, CD2 3EG"), ("uprns", "1, 2"),
                  ("region_codes", "SE")], polyInside)]) :=
  ⟨(process_vertical_street_feature_count toyApi none toyCacheSE
      (fun _ => none) vsRowMulti).1 (by decide),
   (process_vertical_street_feature_count toyApi none toyCacheSE
      (fun _ => none) vsRowValid).2 "SE" polyInside rfl rfl rfl⟩

end MapitPostcodes
